import Mathlib

/-!
Shallow embedding of the NIR spectrum acquisition pipeline
(SpectrumProcessor, ReferenceProcessor, UdpCommunicator, UdpReceiverThread,
SpectrumPredictorManager, RFPredictorPlugin) in Lean 4.

Doubles are modelled as rationals (ℚ); QVariantList packets as `List ℚ`.
Each definition mirrors one function of the C++ source.
-/

namespace NIR

/-- A sample packet: one decoded spectrum reading (QVariantList of numbers). -/
abbrev Packet := List ℚ

/-- `dataPoints = 1024`, the expected number of points per packet
(`const int dataPoints = 1024` in both run() bodies). -/
def dataPoints : ℕ := 1024

/-- `SpectrumProcessor::SPECTRUM_THRESHOLD = 3950`. -/
def SPECTRUM_THRESHOLD : ℕ := 3950

/-- `ReferenceProcessor::REFERENCE_THRESHOLD = 39500`. -/
def REFERENCE_THRESHOLD : ℕ := 39500

/-- One iteration of the summation loop in `run()`:
if the packet has exactly `dataPoints` points, add it elementwise into the
running sums (`averagedData[i] += packet[i]`); otherwise leave the sums
unchanged (the `if (packet.size() == dataPoints)` guard skips the packet). -/
def addPacketToSums (sums : List ℚ) (packet : Packet) : List ℚ :=
  if packet.length = dataPoints then List.zipWith (· + ·) sums packet else sums

/-- The averaging step of `SpectrumProcessor::run` / `ReferenceProcessor::run`
on a detached buffer: start from `dataPoints` zeros, add every
length-matching packet elementwise, then divide every element by
`packetCount = dataToProcess.size()` (the total number of buffered packets). -/
def computeAveraged (buffer : List Packet) : List ℚ :=
  (buffer.foldl addPacketToSums (List.replicate dataPoints 0)).map
    (fun s => s / (buffer.length : ℚ))

/-- The `1e-6` epsilon of the division guard in
`SpectrumProcessor::applyBlackWhiteCorrection`. -/
def epsilon : ℚ := 1 / 1000000

/-- `SpectrumProcessor::applyBlackWhiteCorrection`: for each index `i` of the
raw data, compute `denominator = white[i] - black[i]`; if `|denominator| < 1e-6`
keep `raw[i]`, otherwise output `(raw[i] - black[i]) / denominator`.
The member fields `blackReferenceData_` / `whiteReferenceData_` are passed
explicitly. -/
def applyBlackWhiteCorrection (black white raw : List ℚ) : List ℚ :=
  (List.range raw.length).map (fun i =>
    let rawValue := raw.getD i 0
    let blackValue := black.getD i 0
    let whiteValue := white.getD i 0
    let denominator := whiteValue - blackValue
    if |denominator| < epsilon then rawValue
    else (rawValue - blackValue) / denominator)

/-- The flush body of `SpectrumProcessor::run` on a detached buffer:
compute the elementwise average, then apply black/white correction exactly
when both references are nonempty and of length `dataPoints`; the emitted
signal carries `finalData` and `packetCount = dataToProcess.size()`. -/
def spectrumFlush (black white : List ℚ) (buffer : List Packet) :
    List ℚ × ℕ :=
  let averagedData := computeAveraged buffer
  let finalData :=
    if black ≠ [] ∧ white ≠ [] ∧
        black.length = dataPoints ∧ white.length = dataPoints then
      applyBlackWhiteCorrection black white averagedData
    else averagedData
  (finalData, buffer.length)

/-- The flush body of `ReferenceProcessor::run` on a detached buffer:
the emitted reference spectrum is the plain elementwise average
(no correction), and the divisor is `packetCount = dataToProcess.size()`. -/
def referenceFlush (buffer : List Packet) : List ℚ × ℕ :=
  (computeAveraged buffer, buffer.length)

/-- `SpectrumProcessor::addSpectrumData`: the live engine appends the packet
to `accumulatedData_` unconditionally (no accumulating-state or threshold
check in the body). -/
def specAddSpectrumData (accumulatedData : List Packet) (data : Packet) :
    List Packet :=
  accumulatedData ++ [data]

/-- The mutable state of one `ReferenceProcessor`
(`accumulating_`, `accumulatedData_`). -/
structure RefState where
  accumulating : Bool
  accumulatedData : List Packet
deriving Repr

/-- `ReferenceProcessor::startAccumulating`: set `accumulating_ = true` and
clear the buffer. -/
def startAccumulating (_s : RefState) : RefState :=
  { accumulating := true, accumulatedData := [] }

/-- `ReferenceProcessor::stopAccumulating`: set `accumulating_ = false` and
clear the buffer. -/
def stopAccumulating (_s : RefState) : RefState :=
  { accumulating := false, accumulatedData := [] }

/-- `ReferenceProcessor::addSpectrumData`: append only when
`accumulating_ && accumulatedData_.size() < REFERENCE_THRESHOLD`; on an
accepted packet emit `progressChanged(accumulatedData_.size(),
REFERENCE_THRESHOLD)`; otherwise drop the packet and emit nothing. -/
def refAddSpectrumData (s : RefState) (data : Packet) :
    RefState × Option (ℕ × ℕ) :=
  if s.accumulating ∧ s.accumulatedData.length < REFERENCE_THRESHOLD then
    let buf := s.accumulatedData ++ [data]
    ({ s with accumulatedData := buf }, some (buf.length, REFERENCE_THRESHOLD))
  else (s, none)

/-- Deliver a sequence of packets to a `ReferenceProcessor` through
`addSpectrumData`, collecting the emitted `progressChanged` counts in order. -/
def runAdds (s : RefState) : List Packet → RefState × List ℕ
  | [] => (s, [])
  | p :: ps =>
    let step := refAddSpectrumData s p
    let rest := runAdds step.1 ps
    (rest.1, (step.2.map Prod.fst).toList ++ rest.2)

/-- The slice of `UdpCommunicator` state around one reference engine
(`blackReferenceAccumulating_`, `blackReferenceProgress_`,
`blackReferenceProcessor_`, `receiving_`); the white side is symmetric. -/
structure CommRefState where
  accumulating : Bool
  progress : ℕ
  proc : Option RefState
  receiving : Bool
deriving Repr

/-- `UdpCommunicator::startBlackReference`: no-op if already accumulating or
not receiving; otherwise create the processor if absent, call
`startAccumulating`, set the flag, reset the stored progress to 0 and emit
`blackReferenceProgressChanged(0)` (the emitted counts are returned). -/
def startBlackReference (c : CommRefState) : CommRefState × List ℕ :=
  if c.accumulating then (c, [])
  else if ¬c.receiving then (c, [])
  else
    let r := c.proc.getD { accumulating := false, accumulatedData := [] }
    ({ c with proc := some (startAccumulating r),
              accumulating := true, progress := 0 }, [0])

/-- `UdpCommunicator::stopBlackReference`: no-op unless accumulating; when the
processor exists, call `stopAccumulating`, clear the flag, reset the stored
progress to 0, emit `blackReferenceProgressChanged(0)`, then stop and delete
the processor thread. -/
def stopBlackReference (c : CommRefState) : CommRefState × List ℕ :=
  if ¬c.accumulating then (c, [])
  else
    match c.proc with
    | none => (c, [])
    | some _ =>
      ({ c with accumulating := false, progress := 0, proc := none }, [0])

/-- The state of `UdpReceiverThread` relevant to start-up
(`running_`, `port_`, `bindAddress_`). -/
structure UdpReceiverState where
  running : Bool
  port : ℤ
  bindAddress : String
deriving Repr, DecidableEq

/-- `UdpReceiverThread::startReceiving(port, bindAddress)`: if already
running, emit a status message and return `false`; otherwise store the port
and bind address, set `running_ = true`, start the receive thread, and return
`true`.  No socket is created or bound here. -/
def startReceiving (s : UdpReceiverState) (port : ℤ) (bindAddress : String) :
    UdpReceiverState × Bool :=
  if s.running then (s, false)
  else ({ running := true, port := port, bindAddress := bindAddress }, true)

/-- The outcome of the environment-dependent system calls made by
`UdpReceiverThread::run` before the receive loop. -/
structure SocketEnv where
  pipeOk : Bool
  socketOk : Bool
  reuseAddrOk : Bool
  bindAddrValid : Bool
  bindOk : Bool
deriving Repr, DecidableEq

/-- What the set-up phase of `UdpReceiverThread::run` does: either it emits
`errorOccurred` with a descriptive message and returns without receiving, or
it reaches the receive loop. -/
inductive RunOutcome where
  | errored (msg : String)
  | loopEntered
deriving Repr, DecidableEq

/-- The set-up phase of `UdpReceiverThread::run`, executed on the receive
thread after `startReceiving` has already returned: create the wake-up pipe,
create the UDP socket, set `SO_REUSEADDR`, resolve a nonempty bind address,
and bind; each failure emits `errorOccurred` with a descriptive message and
returns early; on success the receive loop is entered. -/
def runSetup (s : UdpReceiverState) (env : SocketEnv) : RunOutcome :=
  if ¬env.pipeOk then .errored "无法创建管道"
  else if ¬env.socketOk then .errored "无法创建socket"
  else if ¬env.reuseAddrOk then .errored "设置SO_REUSEADDR失败"
  else if s.bindAddress ≠ "" ∧ ¬env.bindAddrValid then .errored "无效的绑定地址"
  else if ¬env.bindOk then .errored "无法绑定UDP端口"
  else .loopEntered

/-- The state behind one `RFPredictorPlugin`: whether its ONNX model is
loaded (`predictor_->isModelLoaded()`), and the underlying
`OnnxSpectrumPredictor::predict`, which may throw (modelled as `Except`). -/
structure RFPredictorState where
  modelLoaded : Bool
  innerPredict : List ℚ → Except String ℚ

/-- `RFPredictorPlugin::predict`: reject input whose length is not 1024 and
return the sentinel `0.0`; otherwise invoke the underlying predictor inside
`try`/`catch`, returning `0.0` if it throws. -/
def rfPredict (p : RFPredictorState) (spectrumData : List ℚ) : ℚ :=
  if spectrumData.length ≠ 1024 then 0
  else
    match p.innerPredict spectrumData with
    | .error _ => 0
    | .ok v => v

/-- One entry of `SpectrumPredictorManager::predictors_`: the `instance`
pointer may be null (`none`). -/
structure PredictorEntry where
  inst : Option RFPredictorState

/-- `SpectrumPredictorManager::predict(index, spectrumData)`: return the
sentinel `0.0` when the index is out of range, the instance pointer is null,
or the backend reports no loaded model; otherwise delegate to the backend's
`predict`. -/
def managerPredict (predictors : List PredictorEntry) (index : ℤ)
    (data : List ℚ) : ℚ :=
  if index < 0 ∨ (predictors.length : ℤ) ≤ index then 0
  else
    let e := predictors.getD index.toNat { inst := none }
    match e.inst with
    | none => 0
    | some p => if ¬p.modelLoaded then 0 else rfPredict p data

/-- Specification shorthand: the sum, over the buffered packets whose length
matches `dataPoints`, of the element at index `i`. -/
def matchingSum (buffer : List Packet) (i : ℕ) : ℚ :=
  ((buffer.filter (fun p => p.length = dataPoints)).map
    (fun p => p.getD i 0)).sum

/-- Specification shorthand, following the claim's words: the arithmetic mean
of element `i` over exactly those buffered packets whose length matches
`dataPoints`. -/
def matchingMean (buffer : List Packet) (i : ℕ) : ℚ :=
  matchingSum buffer i /
    ((buffer.filter (fun p => p.length = dataPoints)).length : ℚ)

/-! ### Helper lemmas about the summation loop -/

lemma length_addPacketToSums (sums : List ℚ) (p : Packet)
    (h : sums.length = dataPoints) :
    (addPacketToSums sums p).length = dataPoints := by
  unfold addPacketToSums
  split
  · simp only [List.length_zipWith, h, *]
    omega
  · exact h

lemma length_foldl_addPacketToSums (buffer : List Packet) (sums : List ℚ)
    (h : sums.length = dataPoints) :
    (buffer.foldl addPacketToSums sums).length = dataPoints := by
  induction buffer generalizing sums with
  | nil => exact h
  | cons p ps ih =>
    simp only [List.foldl_cons]
    exact ih _ (length_addPacketToSums sums p h)

lemma getD_addPacketToSums (sums : List ℚ) (p : Packet) (i : ℕ)
    (h : sums.length = dataPoints) (hi : i < dataPoints) :
    (addPacketToSums sums p).getD i 0 =
      sums.getD i 0 + (if p.length = dataPoints then p.getD i 0 else 0) := by
  unfold addPacketToSums
  split
  · rename_i hp
    rw [List.getD_eq_getElem _ _ (by simp [List.length_zipWith, h, hp]; omega),
        List.getD_eq_getElem _ _ (by omega : i < sums.length),
        List.getD_eq_getElem _ _ (by omega : i < p.length)]
    rw [List.getElem_zipWith]
  · simp [*]

lemma getD_foldl_addPacketToSums (buffer : List Packet) (sums : List ℚ)
    (i : ℕ) (h : sums.length = dataPoints) (hi : i < dataPoints) :
    (buffer.foldl addPacketToSums sums).getD i 0 =
      sums.getD i 0 + matchingSum buffer i := by
  induction buffer generalizing sums with
  | nil => simp [matchingSum]
  | cons p ps ih =>
    simp only [List.foldl_cons]
    rw [ih _ (length_addPacketToSums sums p h),
        getD_addPacketToSums sums p i h hi]
    unfold matchingSum
    by_cases hp : p.length = dataPoints
    · simp [hp, List.filter_cons, matchingSum]
      ring
    · simp [hp, List.filter_cons, matchingSum]

lemma length_computeAveraged (buffer : List Packet) :
    (computeAveraged buffer).length = dataPoints := by
  unfold computeAveraged
  simp [length_foldl_addPacketToSums buffer (List.replicate dataPoints 0)
    (List.length_replicate dataPoints 0)]

lemma getD_computeAveraged (buffer : List Packet) (i : ℕ)
    (hi : i < dataPoints) :
    (computeAveraged buffer).getD i 0 =
      matchingSum buffer i / (buffer.length : ℚ) := by
  unfold computeAveraged
  have hlen : (buffer.foldl addPacketToSums (List.replicate dataPoints 0)).length
      = dataPoints := length_foldl_addPacketToSums buffer _ (by simp)
  rw [List.getD_eq_getElem _ _ (by simp [hlen, hi]),
      List.getElem_map,
      ← List.getD_eq_getElem _ (0 : ℚ) (by omega),
      getD_foldl_addPacketToSums buffer _ i (by simp) hi,
      List.getD_eq_getElem _ _ (by simp [hi]),
      List.getElem_replicate]
  ring

lemma length_applyBlackWhiteCorrection (black white raw : List ℚ) :
    (applyBlackWhiteCorrection black white raw).length = raw.length := by
  unfold applyBlackWhiteCorrection
  simp

lemma getD_applyBlackWhiteCorrection (black white raw : List ℚ) (i : ℕ)
    (hi : i < raw.length) :
    (applyBlackWhiteCorrection black white raw).getD i 0 =
      if |white.getD i 0 - black.getD i 0| < epsilon then raw.getD i 0
      else (raw.getD i 0 - black.getD i 0) /
        (white.getD i 0 - black.getD i 0) := by
  unfold applyBlackWhiteCorrection
  rw [List.getD_eq_getElem _ _ (by simp [hi])]
  simp [hi]

end NIR

open NIR

/-! ### Claim theorems -/

/-- C1: for every live average flush with both references set and of length
1024, at every index `i`: if `|white[i] - black[i]| ≥ 1e-6` the emitted
spectrum satisfies `corrected[i] = (raw[i] - black[i]) / (white[i] - black[i])`,
and if `|white[i] - black[i]| < 1e-6` then `corrected[i] = raw[i]` exactly,
where `raw` is the elementwise average of the flushed buffer. -/
theorem C1_black_white_correction (black white : List ℚ)
    (buffer : List Packet)
    (hb : black.length = dataPoints) (hw : white.length = dataPoints)
    (_hbuf : SPECTRUM_THRESHOLD ≤ buffer.length) (i : ℕ)
    (hi : i < dataPoints) :
    (epsilon ≤ |white.getD i 0 - black.getD i 0| →
      (spectrumFlush black white buffer).1.getD i 0 =
        ((computeAveraged buffer).getD i 0 - black.getD i 0) /
          (white.getD i 0 - black.getD i 0)) ∧
    (|white.getD i 0 - black.getD i 0| < epsilon →
      (spectrumFlush black white buffer).1.getD i 0 =
        (computeAveraged buffer).getD i 0) := by
  have hbne : black ≠ [] := by
    intro h
    rw [h] at hb
    simp [dataPoints] at hb
  have hwne : white ≠ [] := by
    intro h
    rw [h] at hw
    simp [dataPoints] at hw
  have hflush : (spectrumFlush black white buffer).1 =
      applyBlackWhiteCorrection black white (computeAveraged buffer) := by
    simp only [spectrumFlush]
    rw [if_pos ⟨hbne, hwne, hb, hw⟩]
  have hcorr := getD_applyBlackWhiteCorrection black white
    (computeAveraged buffer) i (by rw [length_computeAveraged]; exact hi)
  constructor
  · intro hge
    rw [hflush, hcorr, if_neg (by linarith)]
  · intro hlt
    rw [hflush, hcorr, if_pos hlt]

/-- Witness for C1 at a concrete input: black = 1024 zeros, white = 1024
ones, a full buffer of 3950 empty packets; the denominator is 1 ≥ 1e-6, so
the corrected value at index 0 is `(raw[0] - 0) / 1`. -/
theorem C1_black_white_correction_witness :
    (spectrumFlush (List.replicate 1024 (0 : ℚ))
        (List.replicate 1024 (1 : ℚ))
        (List.replicate 3950 ([] : Packet))).1.getD 0 0 =
      ((computeAveraged (List.replicate 3950 ([] : Packet))).getD 0 0 -
        (List.replicate 1024 (0 : ℚ)).getD 0 0) /
        ((List.replicate 1024 (1 : ℚ)).getD 0 0 -
         (List.replicate 1024 (0 : ℚ)).getD 0 0) :=
  (C1_black_white_correction (List.replicate 1024 0) (List.replicate 1024 1)
    (List.replicate 3950 [])
    (by rw [List.length_replicate]; rfl)
    (by rw [List.length_replicate]; rfl)
    (by rw [List.length_replicate]; decide) 0 (by norm_num [dataPoints])).1
    (by rw [List.getD_eq_getElem _ _ (by rw [List.length_replicate]; norm_num),
            List.getD_eq_getElem _ _ (by rw [List.length_replicate]; norm_num)]
        simp only [List.getElem_replicate]
        norm_num [epsilon])

/-- C5: when the black or white reference is absent or has length other than
1024, the emitted spectrum of a live flush is the uncorrected elementwise
average, unchanged. -/
theorem C5_passthrough_without_references (black white : List ℚ)
    (buffer : List Packet)
    (h : black = [] ∨ white = [] ∨ black.length ≠ dataPoints ∨
      white.length ≠ dataPoints) :
    (spectrumFlush black white buffer).1 = computeAveraged buffer := by
  simp only [spectrumFlush]
  rw [if_neg]
  rintro ⟨hbne, hwne, hb, hw⟩
  rcases h with h | h | h | h
  · exact hbne h
  · exact hwne h
  · exact h hb
  · exact h hw

/-- Witness for C5 at a concrete input: an absent (empty) black reference
forces pass-through. -/
theorem C5_passthrough_without_references_witness :
    (spectrumFlush [] (List.replicate 1024 (1 : ℚ))
        (List.replicate 3950 ([] : Packet))).1 =
      computeAveraged (List.replicate 3950 ([] : Packet)) :=
  C5_passthrough_without_references [] (List.replicate 1024 1)
    (List.replicate 3950 []) (Or.inl rfl)

/-- C9 (implicit): a flush fires only when the buffer has reached the
engine's threshold (3950 live, 39500 reference), so the divisor
`packetCount` of the averaging step is strictly positive — never a division
by zero — even when no buffered packet has matching length. -/
theorem C9_flush_divisor_positive (black white : List ℚ)
    (buffer rbuf : List Packet)
    (h1 : SPECTRUM_THRESHOLD ≤ buffer.length)
    (h2 : REFERENCE_THRESHOLD ≤ rbuf.length) :
    0 < (spectrumFlush black white buffer).2 ∧
    ((spectrumFlush black white buffer).2 : ℚ) ≠ 0 ∧
    0 < (referenceFlush rbuf).2 ∧
    ((referenceFlush rbuf).2 : ℚ) ≠ 0 := by
  have hb : 0 < buffer.length := by
    have : (0 : ℕ) < SPECTRUM_THRESHOLD := by norm_num [SPECTRUM_THRESHOLD]
    omega
  have hr : 0 < rbuf.length := by
    have : (0 : ℕ) < REFERENCE_THRESHOLD := by norm_num [REFERENCE_THRESHOLD]
    omega
  refine ⟨hb, ?_, hr, ?_⟩
  · have h : (buffer.length : ℚ) ≠ 0 := Nat.cast_ne_zero.mpr (by omega)
    simpa [spectrumFlush] using h
  · have h : (rbuf.length : ℚ) ≠ 0 := Nat.cast_ne_zero.mpr (by omega)
    simpa [referenceFlush] using h

/-- Witness for C9 at concrete inputs: full buffers in which every packet is
empty (so no packet has matching length) still give positive divisors. -/
theorem C9_flush_divisor_positive_witness :
    0 < (spectrumFlush [] [] (List.replicate 3950 ([] : Packet))).2 ∧
    ((spectrumFlush [] [] (List.replicate 3950 ([] : Packet))).2 : ℚ) ≠ 0 ∧
    0 < (referenceFlush (List.replicate 39500 ([] : Packet))).2 ∧
    ((referenceFlush (List.replicate 39500 ([] : Packet))).2 : ℚ) ≠ 0 :=
  C9_flush_divisor_positive [] [] (List.replicate 3950 [])
    (List.replicate 39500 [])
    (by rw [List.length_replicate]; decide)
    (by rw [List.length_replicate]; decide)

/-- C10 (implicit): every emitted spectrum — live averaged, black or white
reference — has exactly 1024 elements regardless of the buffered packets'
lengths, and black/white correction preserves the length of its input. -/
theorem C10_emitted_spectrum_length (black white : List ℚ)
    (buffer rbuf : List Packet) (raw : List ℚ) :
    (spectrumFlush black white buffer).1.length = 1024 ∧
    (referenceFlush rbuf).1.length = 1024 ∧
    (applyBlackWhiteCorrection black white raw).length = raw.length := by
  refine ⟨?_, ?_, length_applyBlackWhiteCorrection black white raw⟩
  · simp only [spectrumFlush]
    split
    · rw [length_applyBlackWhiteCorrection, length_computeAveraged]; rfl
    · rw [length_computeAveraged]; rfl
  · rw [show (referenceFlush rbuf).1 = computeAveraged rbuf from rfl,
        length_computeAveraged]
    rfl

/-- C2 fails as stated: with a full live buffer holding one packet of
matching length (all 2s) and 3949 empty packets, the emitted averaged value
at index 0 is `2 / 3950`, while the arithmetic mean over the length-matching
buffered packets is `2`. -/
theorem C2_counterexample :
    SPECTRUM_THRESHOLD ≤
      (List.replicate 1024 (2 : ℚ) ::
        List.replicate 3949 ([] : Packet)).length ∧
    (computeAveraged (List.replicate 1024 (2 : ℚ) ::
        List.replicate 3949 ([] : Packet))).getD 0 0 ≠
      matchingMean (List.replicate 1024 (2 : ℚ) ::
        List.replicate 3949 ([] : Packet)) 0 := by
  have hlen : (List.replicate 1024 (2 : ℚ) ::
      List.replicate 3949 ([] : Packet)).length = 3950 := by
    rw [List.length_cons, List.length_replicate]
  have hfil : (List.replicate 1024 (2 : ℚ) ::
      List.replicate 3949 ([] : Packet)).filter
        (fun p => p.length = dataPoints) = [List.replicate 1024 (2 : ℚ)] := by
    rw [List.filter_cons, List.filter_replicate]
    norm_num [dataPoints]
  have hget : (List.replicate 1024 (2 : ℚ)).getD 0 0 = 2 := by
    rw [List.getD_eq_getElem _ _ (by rw [List.length_replicate]; norm_num),
        List.getElem_replicate]
  have hsum : matchingSum (List.replicate 1024 (2 : ℚ) ::
      List.replicate 3949 ([] : Packet)) 0 = 2 := by
    unfold matchingSum
    rw [hfil, List.map_cons, List.map_nil, List.sum_cons, List.sum_nil, hget]
    norm_num
  constructor
  · rw [hlen]
    decide
  · rw [getD_computeAveraged _ 0 (by norm_num [dataPoints]), hlen, hsum]
    unfold matchingMean
    rw [hfil, hsum]
    norm_num

/-- C2 amended: at a live flush, the emitted averaged value at index `i` is
the sum of element `i` over the length-matching buffered packets divided by
the total number of buffered packets; it equals the arithmetic mean over the
length-matching packets exactly when every buffered packet has matching
length. -/
theorem C2_average_semantics (buffer : List Packet) (i : ℕ)
    (_hthr : SPECTRUM_THRESHOLD ≤ buffer.length) (hi : i < dataPoints) :
    (computeAveraged buffer).getD i 0 =
      matchingSum buffer i / (buffer.length : ℚ) ∧
    (referenceFlush buffer).1.getD i 0 =
      matchingSum buffer i / (buffer.length : ℚ) ∧
    ((∀ p ∈ buffer, p.length = dataPoints) →
      (computeAveraged buffer).getD i 0 = matchingMean buffer i) := by
  have h := getD_computeAveraged buffer i hi
  refine ⟨h, h, ?_⟩
  intro hall
  have hf : buffer.filter (fun p => p.length = dataPoints) = buffer :=
    List.filter_eq_self.mpr (fun p hp => by simp [hall p hp])
  rw [h]
  unfold matchingMean
  rw [hf]

/-- Witness for C2 amended at a concrete input: a full buffer of 3950
all-matching packets. -/
theorem C2_average_semantics_witness :
    (computeAveraged
        (List.replicate 3950 (List.replicate 1024 (2 : ℚ)))).getD 0 0 =
      matchingMean (List.replicate 3950 (List.replicate 1024 (2 : ℚ))) 0 :=
  (C2_average_semantics (List.replicate 3950 (List.replicate 1024 2)) 0
    (by rw [List.length_replicate]; decide) (by norm_num [dataPoints])).2.2
    (fun p hp => by
      rw [List.eq_of_mem_replicate hp, List.length_replicate]
      rfl)

/-- C3: at every flush (live or reference), the divisor of the averaging
step is the total number of packets in the detached buffer, and a packet of
mismatching length contributes nothing to the per-index sums while still
being included in that divisor. -/
theorem C3_divisor_counts_mismatched (black white : List ℚ)
    (buffer : List Packet) (bad : Packet) (i : ℕ)
    (hbad : bad.length ≠ dataPoints) (hi : i < dataPoints) :
    (spectrumFlush black white buffer).2 = buffer.length ∧
    (referenceFlush buffer).2 = buffer.length ∧
    matchingSum (buffer ++ [bad]) i = matchingSum buffer i ∧
    (computeAveraged (buffer ++ [bad])).getD i 0 =
      matchingSum buffer i / ((buffer.length : ℚ) + 1) := by
  have hms : matchingSum (buffer ++ [bad]) i = matchingSum buffer i := by
    unfold matchingSum
    rw [List.filter_append]
    have hb : [bad].filter (fun p => p.length = dataPoints) = [] := by
      simp [hbad]
    rw [hb, List.append_nil]
  refine ⟨rfl, rfl, hms, ?_⟩
  rw [getD_computeAveraged _ i hi, hms, List.length_append]
  push_cast
  norm_num

/-- Witness for C3 at a concrete input: a full buffer of matching packets
plus one empty (mismatching) packet. -/
theorem C3_divisor_counts_mismatched_witness :
    (spectrumFlush [] []
        (List.replicate 3950 (List.replicate 1024 (1 : ℚ)))).2 =
      (List.replicate 3950 (List.replicate 1024 (1 : ℚ))).length ∧
    (computeAveraged
        (List.replicate 3950 (List.replicate 1024 (1 : ℚ)) ++
          [([] : Packet)])).getD 0 0 =
      matchingSum (List.replicate 3950 (List.replicate 1024 (1 : ℚ))) 0 /
        (((List.replicate 3950 (List.replicate 1024 (1 : ℚ))).length : ℚ)
          + 1) :=
  ⟨(C3_divisor_counts_mismatched [] []
      (List.replicate 3950 (List.replicate 1024 1)) [] 0
      (by decide) (by norm_num [dataPoints])).1,
   (C3_divisor_counts_mismatched [] []
      (List.replicate 3950 (List.replicate 1024 1)) [] 0
      (by decide) (by norm_num [dataPoints])).2.2.2⟩

/-- C4 fails as stated for the live engine: with the live buffer already
full pending flush (size = `SPECTRUM_THRESHOLD`), `addSpectrumData` still
appends, so the buffer size exceeds the threshold. -/
theorem C4_counterexample :
    SPECTRUM_THRESHOLD <
      (specAddSpectrumData
        (List.replicate SPECTRUM_THRESHOLD ([] : Packet)) []).length := by
  rw [specAddSpectrumData, List.length_append, List.length_replicate]
  decide

/-- C4 amended: a reference engine appends only while accumulating and
strictly below threshold, drops the packet otherwise, and so never lets its
buffer exceed the threshold; the live engine's `addSpectrumData` appends
unconditionally. -/
theorem C4_append_guard (s : RefState) (p : Packet) (buf : List Packet)
    (q : Packet) :
    (s.accumulating = true →
      s.accumulatedData.length < REFERENCE_THRESHOLD →
      (refAddSpectrumData s p).1.accumulatedData =
        s.accumulatedData ++ [p]) ∧
    (¬(s.accumulating = true ∧
        s.accumulatedData.length < REFERENCE_THRESHOLD) →
      (refAddSpectrumData s p).1 = s) ∧
    (s.accumulatedData.length ≤ REFERENCE_THRESHOLD →
      (refAddSpectrumData s p).1.accumulatedData.length ≤
        REFERENCE_THRESHOLD) ∧
    specAddSpectrumData buf q = buf ++ [q] := by
  refine ⟨?_, ?_, ?_, rfl⟩
  · intro ha hlt
    rw [refAddSpectrumData, if_pos ⟨ha, hlt⟩]
  · intro hn
    rw [refAddSpectrumData, if_neg hn]
  · intro hle
    unfold refAddSpectrumData
    split
    · rename_i hcond
      simp only [List.length_append, List.length_cons, List.length_nil]
      omega
    · exact hle

/-- Witness for C4 amended at concrete inputs: an accumulating reference
engine with an empty buffer accepts a packet; the live engine appends. -/
theorem C4_append_guard_witness :
    (refAddSpectrumData
        { accumulating := true, accumulatedData := [] }
        []).1.accumulatedData = [] ++ [([] : Packet)] ∧
    specAddSpectrumData [] ([] : Packet) = [] ++ [[]] :=
  ⟨(C4_append_guard { accumulating := true, accumulatedData := [] } [] [] []).1
      rfl (by rw [List.length_nil]; decide),
   (C4_append_guard { accumulating := true, accumulatedData := [] } []
      [] []).2.2.2⟩

/-- C6: `predict(index, data)` returns the sentinel `0.0` — and throws
nothing — when the index is out of range, the selected backend's instance is
missing or has no loaded model, or the data length differs from the
backend's expected input length (1024); an exception of the underlying
predictor is swallowed into the sentinel. -/
theorem C6_predict_sentinel (predictors : List PredictorEntry) (index : ℤ)
    (data : List ℚ) (p : RFPredictorState) (msg : String) :
    ((index < 0 ∨ (predictors.length : ℤ) ≤ index) →
      managerPredict predictors index data = 0) ∧
    ((predictors.getD index.toNat { inst := none }).inst = none →
      managerPredict predictors index data = 0) ∧
    ((predictors.getD index.toNat { inst := none }).inst = some p →
      p.modelLoaded = false → managerPredict predictors index data = 0) ∧
    (data.length ≠ 1024 → rfPredict p data = 0) ∧
    ((predictors.getD index.toNat { inst := none }).inst = some p →
      data.length ≠ 1024 → managerPredict predictors index data = 0) ∧
    (p.innerPredict data = Except.error msg → rfPredict p data = 0) := by
  have hlen : ∀ q : RFPredictorState, data.length ≠ 1024 →
      rfPredict q data = 0 := by
    intro q hne
    rw [rfPredict, if_pos hne]
  refine ⟨?_, ?_, ?_, hlen p, ?_, ?_⟩
  · intro h
    rw [managerPredict, if_pos h]
  · intro h
    simp only [managerPredict]
    split
    · rfl
    · rw [h]
  · intro h hm
    simp only [managerPredict]
    split
    · rfl
    · rw [h]
      simp [hm]
  · intro h hne
    simp only [managerPredict]
    split
    · rfl
    · rw [h]
      show (if ¬p.modelLoaded = true then 0 else rfPredict p data) = 0
      split
      · rfl
      · exact hlen p hne
  · intro herr
    unfold rfPredict
    split
    · rfl
    · rw [herr]

/-- Witness for C6 at concrete inputs: a one-entry registry whose backend
has no loaded model and an inner predictor that always throws; an
out-of-range index, a missing model and a wrong-length input all give 0. -/
theorem C6_predict_sentinel_witness :
    managerPredict
      [{ inst := some { modelLoaded := false,
                        innerPredict := fun _ => Except.error "fail" } }]
      5 [1, 2, 3] = 0 ∧
    managerPredict
      [{ inst := some { modelLoaded := false,
                        innerPredict := fun _ => Except.error "fail" } }]
      0 [1, 2, 3] = 0 ∧
    rfPredict { modelLoaded := false,
                innerPredict := fun _ => Except.error "fail" } [1, 2, 3] = 0 :=
  ⟨(C6_predict_sentinel
      [{ inst := some { modelLoaded := false,
                        innerPredict := fun _ => Except.error "fail" } }]
      5 [1, 2, 3]
      { modelLoaded := false, innerPredict := fun _ => Except.error "fail" }
      "fail").1 (by norm_num),
   (C6_predict_sentinel
      [{ inst := some { modelLoaded := false,
                        innerPredict := fun _ => Except.error "fail" } }]
      0 [1, 2, 3]
      { modelLoaded := false, innerPredict := fun _ => Except.error "fail" }
      "fail").2.2.1 rfl rfl,
   (C6_predict_sentinel
      [{ inst := some { modelLoaded := false,
                        innerPredict := fun _ => Except.error "fail" } }]
      0 [1, 2, 3]
      { modelLoaded := false, innerPredict := fun _ => Except.error "fail" }
      "fail").2.2.2.1 (by norm_num)⟩

/-- C7 fails as stated: on a not-yet-running receiver, `startReceiving`
returns `true` immediately, even in an environment where the subsequent bind
in the receive thread fails (port already bound); the failure surfaces only
as an asynchronous `errorOccurred` from `run()`. -/
theorem C7_counterexample :
    (startReceiving
      { running := false, port := 1234, bindAddress := "" } 5678 "").2 =
        true ∧
    runSetup
      (startReceiving
        { running := false, port := 1234, bindAddress := "" } 5678 "").1
      { pipeOk := true, socketOk := true, reuseAddrOk := true,
        bindAddrValid := true, bindOk := false } =
      RunOutcome.errored "无法绑定UDP端口" := by
  constructor
  · rfl
  · rfl

/-- C7 amended: `startReceiving` returns `false` exactly when a receiver is
already running; socket creation and bind failures are detected afterwards
on the receive thread, which emits a descriptive `errorOccurred` and exits
without entering the receive loop — by then `startReceiving` has already
returned `true`. -/
theorem C7_start_reports_async (s : UdpReceiverState) (port : ℤ)
    (addr : String) (env : SocketEnv) :
    ((startReceiving s port addr).2 = false ↔ s.running = true) ∧
    (s.running = false → (startReceiving s port addr).1.running = true) ∧
    (env.pipeOk = true → env.socketOk = true → env.reuseAddrOk = true →
      (s.bindAddress = "" ∨ env.bindAddrValid = true) → env.bindOk = false →
      runSetup s env = RunOutcome.errored "无法绑定UDP端口") ∧
    (env.pipeOk = true → env.socketOk = false →
      runSetup s env = RunOutcome.errored "无法创建socket") := by
  refine ⟨?_, ?_, ?_, ?_⟩
  · unfold startReceiving
    split
    · rename_i hr
      simpa using hr
    · rename_i hr
      simpa using hr
  · intro hr
    rw [startReceiving, if_neg (by rw [hr]; exact Bool.false_ne_true)]
  · intro hp hs hre hba hb
    unfold runSetup
    rw [if_neg (by rw [hp]; simp), if_neg (by rw [hs]; simp),
        if_neg (by rw [hre]; simp), if_neg, if_pos (by rw [hb]; simp)]
    rcases hba with hba | hba
    · rintro ⟨hne, _⟩
      exact hne hba
    · rintro ⟨_, hv⟩
      exact hv hba
  · intro hp hs
    unfold runSetup
    rw [if_neg (by rw [hp]; simp), if_pos (by rw [hs]; simp)]

/-- Witness for C7 amended at a concrete input: a fresh receiver returns
`true` from `startReceiving`, and a failing bind produces the asynchronous
bind error. -/
theorem C7_start_reports_async_witness :
    ((startReceiving
        { running := false, port := 1234, bindAddress := "" } 5678 "").2 =
          false ↔
      ({ running := false, port := 1234,
         bindAddress := "" } : UdpReceiverState).running = true) ∧
    runSetup { running := false, port := 1234, bindAddress := "" }
      { pipeOk := true, socketOk := true, reuseAddrOk := true,
        bindAddrValid := true, bindOk := false } =
      RunOutcome.errored "无法绑定UDP端口" :=
  ⟨(C7_start_reports_async
      { running := false, port := 1234, bindAddress := "" } 5678 ""
      { pipeOk := true, socketOk := true, reuseAddrOk := true,
        bindAddrValid := true, bindOk := false }).1,
   (C7_start_reports_async
      { running := false, port := 1234, bindAddress := "" } 5678 ""
      { pipeOk := true, socketOk := true, reuseAddrOk := true,
        bindAddrValid := true, bindOk := false }).2.2.1
      rfl rfl rfl (Or.inl rfl) rfl⟩

lemma runAdds_counts (ps : List Packet) (s : RefState) :
    (∀ c ∈ (runAdds s ps).2, s.accumulatedData.length < c) ∧
    List.Chain' (· ≤ ·) (runAdds s ps).2 := by
  induction ps generalizing s with
  | nil =>
    refine ⟨?_, ?_⟩
    · intro c hc
      simp [runAdds] at hc
    · simp [runAdds]
  | cons p ps ih =>
    by_cases h : s.accumulating = true ∧
        s.accumulatedData.length < REFERENCE_THRESHOLD
    · have hstep : refAddSpectrumData s p =
          ({ s with accumulatedData := s.accumulatedData ++ [p] },
           some ((s.accumulatedData ++ [p]).length, REFERENCE_THRESHOLD)) := by
        rw [refAddSpectrumData, if_pos h]
      have hrun : (runAdds s (p :: ps)).2 =
          (s.accumulatedData.length + 1) ::
            (runAdds { s with accumulatedData := s.accumulatedData ++ [p] }
              ps).2 := by
        simp [runAdds, hstep]
      obtain ⟨ihmem, ihchain⟩ :=
        ih { s with accumulatedData := s.accumulatedData ++ [p] }
      constructor
      · intro c hc
        rw [hrun] at hc
        rcases List.mem_cons.mp hc with rfl | hc
        · omega
        · have hlt := ihmem c hc
          simp only [List.length_append, List.length_cons,
            List.length_nil] at hlt
          omega
      · rw [hrun, List.chain'_cons']
        refine ⟨?_, ihchain⟩
        intro y hy
        have hlt := ihmem y (List.mem_of_mem_head? hy)
        simp only [List.length_append, List.length_cons,
          List.length_nil] at hlt
        omega
    · have hstep : refAddSpectrumData s p = (s, none) := by
        rw [refAddSpectrumData, if_neg h]
      have hrun : (runAdds s (p :: ps)).2 = (runAdds s ps).2 := by
        simp [runAdds, hstep]
      rw [hrun]
      exact ⟨fun c hc => (ih s).1 c hc, (ih s).2⟩

/-- C8: within one reference session the progress counts reported through
`progressChanged` form a non-decreasing sequence; `startAccumulating` and
`stopAccumulating` both discard the partial buffer; and at the communicator,
stopping an active reference accumulation and starting a new one both reset
the reported progress to 0. -/
theorem C8_progress_monotonic_and_reset (s : RefState) (ps : List Packet)
    (c : CommRefState) (r : RefState) :
    List.Chain' (· ≤ ·) (runAdds (startAccumulating s) ps).2 ∧
    (startAccumulating s).accumulatedData = [] ∧
    (stopAccumulating s).accumulatedData = [] ∧
    (stopAccumulating s).accumulating = false ∧
    (c.accumulating = true → c.proc = some r →
      (stopBlackReference c).1.progress = 0 ∧
      (stopBlackReference c).2 = [0] ∧
      (stopBlackReference c).1.proc = none) ∧
    (c.accumulating = false → c.receiving = true →
      (startBlackReference c).1.progress = 0 ∧
      (startBlackReference c).2 = [0] ∧
      ∀ r0, (startBlackReference c).1.proc = some r0 →
        r0.accumulatedData = []) := by
  refine ⟨(runAdds_counts ps (startAccumulating s)).2, rfl, rfl, rfl, ?_, ?_⟩
  · intro hacc hproc
    have heq : stopBlackReference c =
        ({ c with accumulating := false, progress := 0, proc := none },
         [0]) := by
      rw [stopBlackReference, if_neg (by rw [hacc]; simp), hproc]
    exact ⟨by rw [heq], by rw [heq], by rw [heq]⟩
  · intro hacc hrec
    have heq : startBlackReference c =
        ({ c with
            proc := some (startAccumulating
              (c.proc.getD { accumulating := false, accumulatedData := [] })),
            accumulating := true, progress := 0 }, [0]) := by
      rw [startBlackReference, if_neg (by rw [hacc]; simp),
          if_neg (by rw [hrec]; simp)]
    refine ⟨by rw [heq], by rw [heq], ?_⟩
    intro r0 hr0
    rw [heq] at hr0
    have : startAccumulating
        (c.proc.getD { accumulating := false, accumulatedData := [] }) =
          r0 := by
      exact Option.some_injective _ hr0
    rw [← this]
    rfl

/-- Witness for C8 at concrete inputs: a fresh session fed two packets
reports counts [1, 2]; stopping an active accumulation and starting a fresh
one both reset the stored progress to 0. -/
theorem C8_progress_monotonic_and_reset_witness :
    List.Chain' (· ≤ ·)
      (runAdds
        (startAccumulating { accumulating := false, accumulatedData := [] })
        [[], []]).2 ∧
    (stopBlackReference
      { accumulating := true, progress := 5,
        proc := some { accumulating := true, accumulatedData := [] },
        receiving := true }).1.progress = 0 ∧
    (startBlackReference
      { accumulating := false, progress := 5, proc := none,
        receiving := true }).1.progress = 0 :=
  ⟨(C8_progress_monotonic_and_reset
      { accumulating := false, accumulatedData := [] } [[], []]
      { accumulating := true, progress := 5,
        proc := some { accumulating := true, accumulatedData := [] },
        receiving := true }
      { accumulating := true, accumulatedData := [] }).1,
   ((C8_progress_monotonic_and_reset
      { accumulating := false, accumulatedData := [] } [[], []]
      { accumulating := true, progress := 5,
        proc := some { accumulating := true, accumulatedData := [] },
        receiving := true }
      { accumulating := true, accumulatedData := [] }).2.2.2.2.1
      rfl rfl).1,
   ((C8_progress_monotonic_and_reset
      { accumulating := false, accumulatedData := [] } [[], []]
      { accumulating := false, progress := 5, proc := none,
        receiving := true }
      { accumulating := true, accumulatedData := [] }).2.2.2.2.2
      rfl rfl).1⟩
